import Mathlib

/-!
Verification of the quotient-typescript logging-and-detection-polling
subsystem (`QuotientLogger` in `logger.ts`).

Shallow embedding conventions:
* JavaScript runtime values that flow through dynamically-checked positions
  (documents, tags) are modelled by the inductive `JSValue`; `jsTypeof`
  mirrors the JavaScript `typeof` operator (in particular
  `typeof null = "object"`).
* Optional parameters are `Option _` with `none` standing for `undefined`
  (or `null` where the source treats the two alike via truthiness).
* JavaScript number values are modelled as `Rat`; the `x || d` defaulting
  idiom on numbers is `jsOrNum` / `jsOrOptNum` (`0` is falsy).
* String truthiness: `none` and `some ""` are falsy (`optStrFalsy`).
* `Math.random()` draws, generated uuids and timestamps are passed to
  `_internalLog` as explicit arguments.
* Effects on the external `LogsResource` collaborator are returned as data:
  `_internalLog` returns the list of `create` calls it performed, and the
  poller is driven by an explicit response stream and returns the number of
  `getDetections` queries and of sleeps it performed.
* Error reporting through `logError` / `console.warn` is modelled by
  returning the list of reported error messages and the count of emitted
  deprecation warnings (source messages are transcribed without the quote
  characters).
* Timing model for the poller: a `getDetections` query takes no time and
  every sleep advances the wall clock by exactly the poll interval, so the
  loop guard `elapsed < timeoutMs` admits exactly
  `ceil (timeoutMs / intervalMs)` iterations.
-/

namespace QuotientTS

/-- Dynamically-typed JavaScript values, as far as the logger inspects them. -/
inductive JSValue : Type where
  | str (s : String)
  | num (q : Rat)
  | bool (b : Bool)
  | null
  | undefined
  | obj (fields : List (String × JSValue))
  | arr (elems : List JSValue)
deriving Repr

/-- The JavaScript `typeof` operator (note `typeof null = "object"`,
and arrays are `"object"` as well). -/
def jsTypeof : JSValue → String
  | .str _ => "string"
  | .num _ => "number"
  | .bool _ => "boolean"
  | .null => "object"
  | .undefined => "undefined"
  | .obj _ => "object"
  | .arr _ => "object"

/-- Is this value JavaScript `null`? -/
def JSValue.isNull : JSValue → Bool
  | .null => true
  | _ => false

/-- Property lookup: own properties of object literals only
(mirrors the `in` operator / member access on the shapes the logger sees). -/
def getField : JSValue → String → Option JSValue
  | .obj fields, k => (fields.find? (fun kv => kv.1 == k)).map (fun kv => kv.2)
  | _, _ => none

/-- `DetectionType` enum from `types.ts`. -/
inductive DetectionType : Type where
  | HALLUCINATION
  | DOCUMENT_RELEVANCY
deriving DecidableEq, Repr

/-- `DetectionType.valueOf()`: the string value of the enum member. -/
def DetectionType.valueOf : DetectionType → String
  | .HALLUCINATION => "hallucination"
  | .DOCUMENT_RELEVANCY => "document_relevancy"

/-- `LOG_STATUS` enum from `types.ts`. -/
inductive LOG_STATUS : Type where
  | LOG_NOT_FOUND
  | LOG_CREATION_IN_PROGRESS
  | LOG_CREATED_NO_DETECTIONS_PENDING
  | LOG_CREATED_AND_DETECTION_IN_PROGRESS
  | LOG_CREATED_AND_DETECTION_COMPLETED
deriving DecidableEq, Repr

/-- Record / dictionary of tags. -/
abbrev Tags := List (String × JSValue)

/-- JavaScript string truthiness on an optional string:
`undefined`/`null` and the empty string are falsy. -/
def optStrFalsy : Option String → Bool
  | none => true
  | some s => s == ""

/-- The `x || d` JavaScript defaulting idiom on a number (`0` is falsy). -/
def jsOrNum (x d : Rat) : Rat := if x == 0 then d else x

/-- The `x || d` idiom on an optional number (`undefined` and `0` falsy). -/
def jsOrOptNum (x : Option Rat) (d : Rat) : Rat :=
  match x with
  | none => d
  | some v => jsOrNum v d

/-- The object-spread merge `\x7b...a, ...b\x7d`: keys of both, `b` wins. -/
def mergeTags (a b : Tags) : Tags :=
  a.filter (fun kv => b.all (fun kv2 => kv2.1 != kv.1)) ++ b

/-- Mutable state of a `QuotientLogger` instance (initial values are the
field initializers of the class). -/
structure LoggerState : Type where
  appName : Option String := none
  environment : Option String := none
  tags : Tags := []
  sampleRate : Rat := 1
  configured : Bool := false
  detections : List DetectionType := []
  detectionSampleRate : Rat := 0
deriving Repr

/-- `LoggerConfig` argument of `init` (`types.ts`); `none` = field absent. -/
structure LoggerConfig : Type where
  appName : Option String := none
  environment : Option String := none
  tags : Option Tags := none
  sampleRate : Option Rat := none
  detections : Option (List DetectionType) := none
  detectionSampleRate : Option Rat := none
  hallucinationDetection : Option Bool := none
  inconsistencyDetection : Option Bool := none
  hallucinationDetectionSampleRate : Option Rat := none
deriving Repr

/-- The per-call parameters of `log` (`Omit<LogEntry, appName | environment>`);
`none` = field absent (or `null` where the source only tests truthiness). -/
structure LogParams : Type where
  userQuery : Option String := none
  modelOutput : Option String := none
  documents : Option (List JSValue) := none
  messageHistory : Option (List JSValue) := none
  instructions : Option (List String) := none
  tags : Option Tags := none
  detections : Option (List DetectionType) := none
  detectionSampleRate : Option Rat := none
  hallucinationDetection : Option Bool := none
  inconsistencyDetection : Option Bool := none
  hallucinationDetectionSampleRate : Option Rat := none
deriving Repr

/-- The payload handed to the collaborator `logsResource.create`. -/
structure CreateCall : Type where
  id : String
  createdAt : String
  appName : Option String
  environment : Option String
  userQuery : Option String
  modelOutput : Option String
  documents : Option (List JSValue)
  messageHistory : Option (List JSValue)
  instructions : Option (List String)
  tags : Tags
  detections : List String
  detectionSampleRate : Rat
deriving Repr

/-- Resolution of a `log()` promise: the generated id string, `null`, or
`undefined` (falling off the end of the function body). -/
inductive LogResult : Type where
  | logged (id : String)
  | failed
  | sampledOut
deriving DecidableEq, Repr

/-- `init(config)`: returns the state after the call, the reported error
messages, and the number of deprecation warnings printed.  Transcribed
statement by statement from the source; the two `typeof` sanity checks on
`tags` and `sampleRate` cannot fire in this typed embedding. -/
def init (st : LoggerState) (config : LoggerConfig) :
    LoggerState × List String × Nat :=
  if optStrFalsy config.appName then
    (st, ["appName must be a non-empty string"], 0)
  else if optStrFalsy config.environment then
    (st, ["environment must be a non-empty string"], 0)
  else
    let deprecatedDetectionParamsUsed :=
      config.hallucinationDetection.isSome ||
      config.inconsistencyDetection.isSome ||
      config.hallucinationDetectionSampleRate.isSome
    let detectionParamsUsed :=
      config.detections.isSome || config.detectionSampleRate.isSome
    if deprecatedDetectionParamsUsed && detectionParamsUsed then
      (st, ["Cannot mix deprecated parameters with new detection parameters in logger.init()"], 0)
    else
      let warnCount : Nat := if deprecatedDetectionParamsUsed then 1 else 0
      let newDetections : List DetectionType :=
        if deprecatedDetectionParamsUsed then
          if config.hallucinationDetection == some true then
            [DetectionType.HALLUCINATION]
          else []
        else config.detections.getD []
      let newDetectionSampleRate : Rat :=
        if deprecatedDetectionParamsUsed then
          jsOrOptNum config.hallucinationDetectionSampleRate 0
        else jsOrOptNum config.detectionSampleRate 0
      let st1 : LoggerState :=
        { st with
          detections := newDetections
          detectionSampleRate := newDetectionSampleRate
          appName := config.appName
          environment := config.environment
          tags := config.tags.getD []
          sampleRate := jsOrOptNum config.sampleRate 1 }
      if st1.sampleRate < 0 ∨ st1.sampleRate > 1 then
        (st1, ["sampleRate must be between 0.0 and 1.0"], warnCount)
      else if st1.detectionSampleRate < 0 ∨ st1.detectionSampleRate > 1 then
        (st1, ["detectionSampleRate must be between 0.0 and 1.0"], warnCount)
      else
        ({ st1 with configured := true }, [], warnCount)

/-- `shouldSample()`, with the `Math.random()` draw passed explicitly. -/
def shouldSample (st : LoggerState) (rand : Rat) : Bool :=
  rand < st.sampleRate

/-- `isValidLogDocument(obj)`: `none` means valid, `some err` carries
the error message. -/
def isValidLogDocument (v : JSValue) : Option String :=
  match getField v "pageContent" with
  | none => some "Missing required pageContent property"
  | some pc =>
    if jsTypeof pc != "string" then
      some ("The pageContent property must be a string, found " ++ jsTypeof pc)
    else
      match getField v "metadata" with
      | some md =>
        if !md.isNull && jsTypeof md != "object" then
          some ("The metadata property must be an object, found " ++ jsTypeof md)
        else none
      | none => none

/-- The `ValidationError` message for an object failing `isValidLogDocument`
at index `i` with reason `err`. -/
def docFormatErrorMsg (i : Nat) (err : String) : String :=
  "Invalid document format at index " ++ toString i ++ ": " ++ err ++
    ". Documents must be either strings or JSON objects with a pageContent string property and an optional metadata object."

/-- The `ValidationError` message for an element of invalid type `ty` at
index `i`. -/
def docTypeErrorMsg (i : Nat) (ty : String) : String :=
  "Invalid document type at index " ++ toString i ++ ". Found " ++ ty ++
    ", but documents must be either strings or JSON objects with a pageContent property."

/-- Loop body of `validateDocuments`, carrying the index `i`. -/
def validateDocumentsAux : List JSValue → Nat → Except String Unit
  | [], _ => .ok ()
  | d :: rest, i =>
    if jsTypeof d == "string" then
      validateDocumentsAux rest (i + 1)
    else if jsTypeof d == "object" && !d.isNull then
      match isValidLogDocument d with
      | some err => .error (docFormatErrorMsg i err)
      | none => validateDocumentsAux rest (i + 1)
    else
      .error (docTypeErrorMsg i (jsTypeof d))

/-- `validateDocuments(documents)`: `.ok` when the source returns `true`,
`.error msg` when it reports a `ValidationError` and returns `false`. -/
def validateDocuments (documents : List JSValue) : Except String Unit :=
  validateDocumentsAux documents 0

/-- The `for (const detection of detections)` required-field loop of
`_internalLog` (current-scheme branch): `true` when every check passes,
`false` when some check reports an error and the method returns `null`. -/
def checkDetectionLoop (params : LogParams) : List DetectionType → Bool
  | [] => true
  | .HALLUCINATION :: rest =>
    if optStrFalsy params.userQuery then false
    else if optStrFalsy params.modelOutput then false
    else if params.documents.isNone && params.messageHistory.isNone &&
        params.instructions.isNone then false
    else checkDetectionLoop params rest
  | .DOCUMENT_RELEVANCY :: rest =>
    if optStrFalsy params.userQuery then false
    else if params.documents.isNone then false
    else checkDetectionLoop params rest

/-- The common tail of `_internalLog` after the two reconciliation branches
have produced the effective `detections` and `detectionSampleRate`:
document-format validation, tag merge, sampling, and the `create` submission
(source lines following the branch merge). -/
def logTail (st : LoggerState) (params : LogParams)
    (detections : List DetectionType) (detectionSampleRate : Rat)
    (rand : Rat) (genId now : String) :
    LogResult × List CreateCall × LoggerState :=
  let docsOk :=
    match params.documents with
    | some ds => (validateDocuments ds).isOk
    | none => true
  if !docsOk then (.failed, [], st)
  else
    let mergedTags := mergeTags st.tags (params.tags.getD [])
    if shouldSample st rand then
      (.logged genId,
       [{ id := genId
          createdAt := now
          appName := st.appName
          environment := st.environment
          userQuery := params.userQuery
          modelOutput := params.modelOutput
          documents := params.documents
          messageHistory := params.messageHistory
          instructions := params.instructions
          tags := mergedTags
          detections := detections.map DetectionType.valueOf
          detectionSampleRate := detectionSampleRate }],
       st)
    else (.sampledOut, [], st)

/-- `_internalLog(params)`: the `Math.random()` draw, the generated uuid and
the ISO timestamp are explicit arguments.  Returns the promise resolution,
the list of `create` calls performed on the collaborator, and the logger
state after the call (the method body contains no assignment to `this`,
which the state-passing translation makes explicit). -/
def _internalLog (st : LoggerState) (params : LogParams) (rand : Rat)
    (genId : String) (now : String) : LogResult × List CreateCall × LoggerState :=
  if !st.configured then (.failed, [], st)
  else if optStrFalsy st.appName || optStrFalsy st.environment then (.failed, [], st)
  else if (params.hallucinationDetection.isSome || params.inconsistencyDetection.isSome) &&
      (params.detections.isSome || params.detectionSampleRate.isSome) then
    (.failed, [], st)
  else if params.hallucinationDetection.isSome || params.inconsistencyDetection.isSome then
    -- deprecated-parameter branch: convert, then require userQuery and modelOutput
    if optStrFalsy params.userQuery || optStrFalsy params.modelOutput then
      (.failed, [], st)
    else
      logTail st params
        (if params.hallucinationDetection == some true then
          [DetectionType.HALLUCINATION]
        else [])
        (jsOrNum st.detectionSampleRate 0) rand genId now
  else
    -- current-parameter branch: per-call values override the logger defaults
    if params.detectionSampleRate.getD st.detectionSampleRate < 0 ∨
        params.detectionSampleRate.getD st.detectionSampleRate > 1 then
      (.failed, [], st)
    else if !checkDetectionLoop params (params.detections.getD st.detections) then
      (.failed, [], st)
    else
      logTail st params (params.detections.getD st.detections)
        (params.detectionSampleRate.getD st.detectionSampleRate) rand genId now

/-- The status/detail record under the `log` key of a detection-results
bundle. -/
structure LogInfo : Type where
  status : LOG_STATUS
deriving DecidableEq, Repr

/-- A detection-results bundle as returned by `logsResource.getDetections`:
the `log` record (possibly absent) plus the evaluation payload, abstracted
to an opaque string. -/
structure PollBundle : Type where
  log : Option LogInfo
  payload : String
deriving DecidableEq, Repr

/-- One behaviour of `logsResource.getDetections`: the promise either
rejects (`throws`) or resolves (`returns`, possibly with `null`). -/
inductive PollResponse : Type where
  | throws
  | returns (res : Option PollBundle)
deriving DecidableEq, Repr

/-- The two terminal statuses of the polling loop. -/
def isTerminalStatus (s : LOG_STATUS) : Bool :=
  s == .LOG_CREATED_NO_DETECTIONS_PENDING ||
  s == .LOG_CREATED_AND_DETECTION_COMPLETED

/-- Does this collaborator response end the loop, i.e. resolve with a bundle
whose log status is terminal? -/
def yieldsTerminal : PollResponse → Bool
  | .throws => false
  | .returns none => false
  | .returns (some b) =>
    match b.log with
    | none => false
    | some info => isTerminalStatus info.status

/-- The bundle a terminal response carries. -/
def terminalBundle : PollResponse → Option PollBundle
  | .returns (some b) => some b
  | _ => none

/-- The polling loop of `_internalPollForDetection`.  `responses k` is the
behaviour of the `k`-th `getDetections` call; `k` is the number of queries
(and sleeps) already performed; `fuel` is the number of loop iterations the
wall clock still admits.  Returns the resolution, the total number of
queries, and the total number of sleeps. -/
def pollLoop (responses : Nat → PollResponse) :
    Nat → Nat → Option PollBundle × Nat × Nat
  | k, 0 => (none, k, k)
  | k, fuel + 1 =>
    if yieldsTerminal (responses k) then (terminalBundle (responses k), k + 1, k)
    else pollLoop responses (k + 1) fuel

/-- Number of iterations the guard `Date.now() - startTime < timeoutMs`
admits under the timing model (queries are instantaneous, each sleep lasts
`pollInterval * 1000` ms): the least `k` with
`¬ (k * intervalMs < timeoutMs)`, i.e. `ceil (timeoutMs / intervalMs)`. -/
def maxQueries (timeout pollInterval : Rat) : Nat :=
  ((timeout * 1000) / (pollInterval * 1000)).ceil.toNat

/-- Observable outcome of a `pollForDetection` call: the promise resolution,
the number of `getDetections` network calls, the number of sleeps, and the
reported error messages. -/
structure PollOutcome : Type where
  result : Option PollBundle
  queries : Nat
  sleeps : Nat
  errors : List String
deriving DecidableEq, Repr

/-- `_internalPollForDetection(logId, timeout, pollInterval)`, driven by the
explicit collaborator response stream. -/
def _internalPollForDetection (st : LoggerState) (logId : String)
    (timeout pollInterval : Rat) (responses : Nat → PollResponse) :
    PollOutcome :=
  if !st.configured then
    { result := none, queries := 0, sleeps := 0,
      errors := ["Logger is not configured. Please call init() before polling for detection results."] }
  else if logId == "" then
    { result := none, queries := 0, sleeps := 0,
      errors := ["Log ID is required for detection polling."] }
  else
    match pollLoop responses 0 (maxQueries timeout pollInterval) with
    | (some b, q, s) => { result := some b, queries := q, sleeps := s, errors := [] }
    | (none, q, s) =>
      { result := none, queries := q, sleeps := s,
        errors := ["Timed out waiting for detection results after " ++ toString timeout ++ " seconds"] }

/-! ### Specification-level predicates

These are written from the specification text and compared with the
transcribed code through the theorems below. -/

/-- At least one deprecated detection field that `_internalLog` inspects. -/
def logDeprUsed (params : LogParams) : Bool :=
  params.hallucinationDetection.isSome || params.inconsistencyDetection.isSome

/-- At least one current detection field in a `log` call. -/
def logCurrUsed (params : LogParams) : Bool :=
  params.detections.isSome || params.detectionSampleRate.isSome

/-- The detection list in force for a `log` call (per-call parameters
override the logger defaults; deprecated flags are converted). -/
def resolvedDetections (st : LoggerState) (params : LogParams) :
    List DetectionType :=
  if logDeprUsed params then
    if params.hallucinationDetection == some true then
      [DetectionType.HALLUCINATION]
    else []
  else params.detections.getD st.detections

/-- The detection sample rate in force for a `log` call. -/
def resolvedDetectionSampleRate (st : LoggerState) (params : LogParams) : Rat :=
  if logDeprUsed params then jsOrNum st.detectionSampleRate 0
  else params.detectionSampleRate.getD st.detectionSampleRate

/-- A single document element the validator accepts: a bare string, or an
object whose `pageContent` field is a string and whose `metadata` field, if
present, is object-typed. -/
def docAccepted : JSValue → Bool
  | .str _ => true
  | .obj fields =>
    (match getField (.obj fields) "pageContent" with
     | some (.str _) =>
       (match getField (.obj fields) "metadata" with
        | none => true
        | some md => jsTypeof md == "object")
     | _ => false)
  | _ => false

/-- The per-detection required-field rules of the current scheme. -/
def detectionFieldsOk (params : LogParams) : DetectionType → Bool
  | .HALLUCINATION =>
    !optStrFalsy params.userQuery && !optStrFalsy params.modelOutput &&
    (params.documents.isSome || params.messageHistory.isSome ||
     params.instructions.isSome)
  | .DOCUMENT_RELEVANCY =>
    !optStrFalsy params.userQuery && params.documents.isSome

/-- All configuration, reconciliation and validation checks of a `log` call,
as the specification states them. -/
def logChecksPass (st : LoggerState) (params : LogParams) : Bool :=
  st.configured &&
  !optStrFalsy st.appName && !optStrFalsy st.environment &&
  !(logDeprUsed params && logCurrUsed params) &&
  (if logDeprUsed params then
    !optStrFalsy params.userQuery && !optStrFalsy params.modelOutput
   else
    decide (0 ≤ resolvedDetectionSampleRate st params) &&
    decide (resolvedDetectionSampleRate st params ≤ 1) &&
    (resolvedDetections st params).all (detectionFieldsOk params)) &&
  (match params.documents with
   | some ds => ds.all docAccepted
   | none => true)

/-- The canonical record a sampled `log` call submits, given the effective
detection values. -/
def mkCreateCallWith (st : LoggerState) (params : LogParams)
    (detections : List DetectionType) (detectionSampleRate : Rat)
    (genId : String) (now : String) : CreateCall :=
  { id := genId
    createdAt := now
    appName := st.appName
    environment := st.environment
    userQuery := params.userQuery
    modelOutput := params.modelOutput
    documents := params.documents
    messageHistory := params.messageHistory
    instructions := params.instructions
    tags := mergeTags st.tags (params.tags.getD [])
    detections := detections.map DetectionType.valueOf
    detectionSampleRate := detectionSampleRate }

/-- The canonical record a sampled, valid `log` call submits. -/
def mkCreateCall (st : LoggerState) (params : LogParams)
    (genId : String) (now : String) : CreateCall :=
  mkCreateCallWith st params (resolvedDetections st params)
    (resolvedDetectionSampleRate st params) genId now

/-- At least one deprecated detection field in an `init` call
(`init` also counts `hallucinationDetectionSampleRate`). -/
def initDeprUsed (config : LoggerConfig) : Bool :=
  config.hallucinationDetection.isSome ||
  config.inconsistencyDetection.isSome ||
  config.hallucinationDetectionSampleRate.isSome

/-- At least one current detection field in an `init` call. -/
def initCurrUsed (config : LoggerConfig) : Bool :=
  config.detections.isSome || config.detectionSampleRate.isSome

/-- The canonical detection list `init` stores. -/
def initResolvedDetections (config : LoggerConfig) : List DetectionType :=
  if initDeprUsed config then
    if config.hallucinationDetection == some true then
      [DetectionType.HALLUCINATION]
    else []
  else config.detections.getD []

/-- The detection sample rate `init` stores. -/
def initResolvedDetectionSampleRate (config : LoggerConfig) : Rat :=
  if initDeprUsed config then
    jsOrOptNum config.hallucinationDetectionSampleRate 0
  else jsOrOptNum config.detectionSampleRate 0

/-- The number of deprecation notices an `init` call prints. -/
def initWarnCount (config : LoggerConfig) : Nat :=
  if initDeprUsed config then 1 else 0

/-- The state after `init` has run its field assignments (which the source
performs before the sample-rate range checks); `configured` keeps its prior
value. -/
def initAssigned (st : LoggerState) (config : LoggerConfig) : LoggerState :=
  { st with
    detections := initResolvedDetections config
    detectionSampleRate := initResolvedDetectionSampleRate config
    appName := config.appName
    environment := config.environment
    tags := config.tags.getD []
    sampleRate := jsOrOptNum config.sampleRate 1 }

/-! ### Concrete instances used by witnesses and counterexamples -/

/-- A logger state as produced by a plain successful `init`
(sample rate 1, no detections). -/
def stOK : LoggerState :=
  { appName := some "app", environment := some "dev", tags := []
    sampleRate := 1, configured := true, detections := []
    detectionSampleRate := 0 }

/-- A config passing an explicit sample rate of zero. -/
def cfgZeroRate : LoggerConfig :=
  { appName := some "app", environment := some "dev", sampleRate := some 0 }

/-- A config with an out-of-range sample rate. -/
def cfgRate2 : LoggerConfig :=
  { appName := some "app", environment := some "dev", sampleRate := some 2 }

/-- A reconfiguration attempt with an out-of-range sample rate. -/
def cfgReinit : LoggerConfig :=
  { appName := some "other", environment := some "prod", sampleRate := some 2 }

/-- A legacy-only config: hallucination detection at rate 4/5 (= 0.8),
with the unsupported `inconsistencyDetection` flag also set
(4/5 is the claim example rate 0.8). -/
def cfgLegacy : LoggerConfig :=
  { appName := some "app", environment := some "dev",
    hallucinationDetection := some true, inconsistencyDetection := some true,
    hallucinationDetectionSampleRate := some (mkRat 4 5) }

/-- An `init` config mixing the legacy and current schemes. -/
def cfgMixed : LoggerConfig :=
  { appName := some "app", environment := some "dev",
    hallucinationDetection := some true,
    detections := some [DetectionType.HALLUCINATION] }

/-- `log` parameters mixing the legacy boolean flag with the current list. -/
def pMixed : LogParams :=
  { hallucinationDetection := some true,
    detections := some [DetectionType.HALLUCINATION] }

/-- `log` parameters setting the legacy `hallucinationDetectionSampleRate`
together with a current-scheme field. -/
def pRateMixed : LogParams :=
  { hallucinationDetectionSampleRate := some (mkRat 1 2), detections := some [] }

/-- A legacy-scheme `log` call with no documents, message history or
instructions. -/
def pLegacyNoContext : LogParams :=
  { userQuery := some "q", modelOutput := some "a",
    hallucinationDetection := some true }

/-- A configured logger whose default detection set is document relevancy. -/
def stDR : LoggerState := { stOK with detections := [DetectionType.DOCUMENT_RELEVANCY] }

/-- A configured logger whose default detection set is hallucination. -/
def stHall : LoggerState := { stOK with detections := [DetectionType.HALLUCINATION] }

/-- A document-relevancy `log` call without `modelOutput`. -/
def pDR : LogParams := { userQuery := some "q", documents := some [.str "d"] }

/-- A `log` call carrying only a user query. -/
def pQueryOnly : LogParams := { userQuery := some "q" }

/-- A collaborator stub whose detection status is never terminal. -/
def pendingStub : Nat → PollResponse := fun _ =>
  .returns (some { log := some { status := .LOG_CREATED_AND_DETECTION_IN_PROGRESS }
                   payload := "pending" })

/-- A collaborator stub that reports an in-progress status twice and then a
completed one. -/
def twoPendingStub : Nat → PollResponse := fun k =>
  if k < 2 then
    .returns (some { log := some { status := .LOG_CREATED_AND_DETECTION_IN_PROGRESS }
                     payload := "pending" })
  else
    .returns (some { log := some { status := .LOG_CREATED_AND_DETECTION_COMPLETED }
                     payload := "done" })

/-! ### Helper lemmas -/

/-- The required-field loop returns `true` exactly when every selected
detection satisfies its rule. -/
lemma checkDetectionLoop_eq_all (p : LogParams) (l : List DetectionType) :
    checkDetectionLoop p l = l.all (detectionFieldsOk p) := by
  induction l with
  | nil => rfl
  | cons d rest ih =>
    cases d <;>
      simp only [checkDetectionLoop, detectionFieldsOk, List.all_cons, ih] <;>
      by_cases h1 : optStrFalsy p.userQuery <;>
      by_cases h2 : optStrFalsy p.modelOutput <;>
      cases hdoc : p.documents <;>
      cases hmh : p.messageHistory <;>
      cases hins : p.instructions <;>
      simp_all

/-- On an object, `isValidLogDocument` succeeds exactly on the accepted
document shapes. -/
lemma isValidLogDocument_obj (fields : List (String × JSValue)) :
    (isValidLogDocument (.obj fields)).isNone = docAccepted (.obj fields) := by
  unfold isValidLogDocument docAccepted
  cases hpc : getField (.obj fields) "pageContent" with
  | none => simp [hpc]
  | some pc =>
    cases pc <;> simp only [hpc, jsTypeof] <;> try simp [hpc]
    cases hmd : getField (.obj fields) "metadata" with
    | none => simp [hpc, hmd]
    | some md => cases md <;> simp [hpc, hmd, JSValue.isNull, jsTypeof]

/-- The document-validation loop succeeds exactly when every element is an
accepted document shape. -/
lemma validateDocumentsAux_isOk (ds : List JSValue) :
    ∀ i, (validateDocumentsAux ds i).isOk = ds.all docAccepted := by
  induction ds with
  | nil => intro i; rfl
  | cons d rest ih =>
    intro i
    cases d with
    | str s => simpa [validateDocumentsAux, jsTypeof, docAccepted] using ih (i + 1)
    | num q => simp [validateDocumentsAux, jsTypeof, docAccepted, Except.isOk, Except.toBool]
    | bool b => simp [validateDocumentsAux, jsTypeof, docAccepted, Except.isOk, Except.toBool]
    | null => simp [validateDocumentsAux, jsTypeof, JSValue.isNull, docAccepted, Except.isOk, Except.toBool]
    | undefined => simp [validateDocumentsAux, jsTypeof, docAccepted, Except.isOk, Except.toBool]
    | arr es => simp [validateDocumentsAux, jsTypeof, JSValue.isNull, docAccepted, Except.isOk, Except.toBool, isValidLogDocument, getField]
    | obj fields =>
      have hobj := isValidLogDocument_obj fields
      cases hv : isValidLogDocument (.obj fields) with
      | some err =>
        rw [hv] at hobj
        simp [validateDocumentsAux, jsTypeof, JSValue.isNull, hv, Except.isOk, Except.toBool, ← hobj]
      | none =>
        rw [hv] at hobj
        simpa [validateDocumentsAux, jsTypeof, JSValue.isNull, hv, ← hobj] using ih (i + 1)

/-- `validateDocuments` succeeds exactly when every element is an accepted
document shape. -/
lemma validateDocuments_ok_iff (ds : List JSValue) :
    validateDocuments ds = .ok () ↔ ds.all docAccepted = true := by
  rw [← validateDocumentsAux_isOk ds 0]
  unfold validateDocuments
  cases hv : validateDocumentsAux ds 0 with
  | ok u => cases u; simp [Except.isOk, Except.toBool]
  | error e => simp [hv, Except.isOk, Except.toBool]

/-- Behaviour of the shared tail of `_internalLog`: document validation
gates, then sampling decides between the single submission and silent
suppression. -/
lemma logTail_spec (st : LoggerState) (p : LogParams)
    (dets : List DetectionType) (dsr : Rat) (rand : Rat) (genId now : String) :
    logTail st p dets dsr rand genId now =
      if (match p.documents with
          | some ds => ds.all docAccepted
          | none => true) then
        if rand < st.sampleRate then
          (.logged genId, [mkCreateCallWith st p dets dsr genId now], st)
        else (.sampledOut, [], st)
      else (.failed, [], st) := by
  unfold logTail mkCreateCallWith
  cases hdocs : p.documents with
  | none => simp [hdocs, shouldSample]
  | some ds =>
    cases hall : ds.all docAccepted with
    | false =>
      have hok : (validateDocuments ds).isOk = false := by
        rw [validateDocuments, validateDocumentsAux_isOk, hall]
      simp [hdocs, hall, hok]
    | true =>
      have hok : (validateDocuments ds).isOk = true := by
        rw [validateDocuments, validateDocumentsAux_isOk, hall]
      simp [hdocs, hall, hok, shouldSample]

/-- Full behavioural characterisation of `_internalLog`: the sequential
early-return checks implement exactly the conjunction `logChecksPass`; a
passing call submits the canonical record exactly once when sampled, and a
failing one resolves null with no submission. -/
lemma internalLog_spec (st : LoggerState) (p : LogParams) (rand : Rat)
    (genId now : String) :
    _internalLog st p rand genId now =
      if logChecksPass st p then
        if rand < st.sampleRate then
          (.logged genId, [mkCreateCall st p genId now], st)
        else (.sampledOut, [], st)
      else (.failed, [], st) := by
  unfold _internalLog logChecksPass mkCreateCall resolvedDetections
    resolvedDetectionSampleRate logDeprUsed logCurrUsed
  cases hc : st.configured with
  | false => simp
  | true =>
  cases ha : optStrFalsy st.appName with
  | true => simp
  | false =>
  cases he : optStrFalsy st.environment with
  | true => simp
  | false =>
  cases hdep : p.hallucinationDetection.isSome || p.inconsistencyDetection.isSome with
  | true =>
    cases hnew : p.detections.isSome || p.detectionSampleRate.isSome with
    | true => simp [hdep, hnew]
    | false =>
      cases huq : optStrFalsy p.userQuery with
      | true => simp [hdep, hnew, huq]
      | false =>
        cases hmo : optStrFalsy p.modelOutput with
        | true => simp [hdep, hnew, huq, hmo]
        | false => simp [hdep, hnew, huq, hmo, logTail_spec]
  | false =>
    by_cases h0 : (0 : Rat) ≤ p.detectionSampleRate.getD st.detectionSampleRate
    · by_cases h1 : p.detectionSampleRate.getD st.detectionSampleRate ≤ 1
      · cases hloop :
          (p.detections.getD st.detections).all (detectionFieldsOk p) with
        | false =>
          simp [hdep, h0, h1, not_lt.mpr h0, not_lt.mpr h1,
            checkDetectionLoop_eq_all, hloop]
        | true =>
          simp [hdep, h0, h1, not_lt.mpr h0, not_lt.mpr h1,
            checkDetectionLoop_eq_all, hloop, logTail_spec]
      · simp [hdep, h0, h1, not_le.mp h1]
    · simp [hdep, h0, not_le.mp h0]

/-- If no response up to the fuel bound is terminal, the polling loop runs
out of time, having queried and slept once per admitted iteration. -/
lemma pollLoop_no_terminal (responses : Nat → PollResponse) :
    ∀ fuel k, (∀ j, k ≤ j → j < k + fuel → yieldsTerminal (responses j) = false) →
      pollLoop responses k fuel = (none, k + fuel, k + fuel) := by
  intro fuel
  induction fuel with
  | zero => intro k _; simp [pollLoop]
  | succ n ih =>
    intro k h
    have h0 : yieldsTerminal (responses k) = false := h k le_rfl (by omega)
    have hrec := ih (k + 1) (fun j hj1 hj2 => h j (by omega) (by omega))
    have harith : k + 1 + n = k + (n + 1) := by omega
    rw [harith] at hrec
    simp [pollLoop, h0, hrec]

/-- If the first terminal response arrives at index `d` within the fuel
bound, the loop returns its bundle after `d + 1` queries and `d` sleeps. -/
lemma pollLoop_first_terminal (responses : Nat → PollResponse) :
    ∀ fuel k d, d < fuel →
      yieldsTerminal (responses (k + d)) = true →
      (∀ j, k ≤ j → j < k + d → yieldsTerminal (responses j) = false) →
      pollLoop responses k fuel =
        (terminalBundle (responses (k + d)), k + d + 1, k + d) := by
  intro fuel
  induction fuel with
  | zero => intro k d hd _ _; exact absurd hd (Nat.not_lt_zero d)
  | succ n ih =>
    intro k d hd ht hmin
    cases d with
    | zero =>
      have h0 : yieldsTerminal (responses k) = true := by simpa using ht
      simp [pollLoop, h0]
    | succ d2 =>
      have h0 : yieldsTerminal (responses k) = false :=
        hmin k le_rfl (by omega)
      have harith : k + 1 + d2 = k + (d2 + 1) := by omega
      have hrec := ih (k + 1) d2 (by omega)
        (by rw [harith]; exact ht)
        (fun j hj1 hj2 => hmin j (by omega) (by omega))
      rw [harith] at hrec
      simp [pollLoop, h0, hrec]

/-- A terminal response carries a bundle whose log status is terminal. -/
lemma yieldsTerminal_bundle (r : PollResponse) (h : yieldsTerminal r = true) :
    ∃ b info, terminalBundle r = some b ∧ b.log = some info ∧
      isTerminalStatus info.status = true := by
  cases r with
  | throws => simp [yieldsTerminal] at h
  | returns res =>
    cases res with
    | none => simp [yieldsTerminal] at h
    | some b =>
      cases hl : b.log with
      | none => rw [yieldsTerminal, hl] at h; simp at h
      | some info =>
        rw [yieldsTerminal, hl] at h
        exact ⟨b, info, rfl, hl, h⟩

/-- Any bundle the polling loop returns has a terminal log status. -/
lemma pollLoop_some_terminal (responses : Nat → PollResponse) :
    ∀ fuel k b q s, pollLoop responses k fuel = (some b, q, s) →
      ∃ info, b.log = some info ∧ isTerminalStatus info.status = true := by
  intro fuel
  induction fuel with
  | zero => intro k b q s h; simp [pollLoop] at h
  | succ n ih =>
    intro k b q s h
    cases hy : yieldsTerminal (responses k) with
    | false =>
      rw [pollLoop] at h
      rw [hy] at h
      simp at h
      exact ih (k + 1) b q s h
    | true =>
      rw [pollLoop] at h
      rw [hy] at h
      simp at h
      obtain ⟨b2, info, hb2, hlog, hterm⟩ := yieldsTerminal_bundle _ hy
      rw [hb2] at h
      obtain ⟨hb, _, _⟩ := h
      injection hb with hb
      exact ⟨info, by rw [← hb]; exact hlog, hterm⟩

/-- Characterisation of `init` in terms of the specification-level
predicates: early failures leave the state untouched, range failures occur
after the field assignments, success additionally sets `configured`. -/
lemma init_spec (st : LoggerState) (c : LoggerConfig) :
    init st c =
      if optStrFalsy c.appName then
        (st, ["appName must be a non-empty string"], 0)
      else if optStrFalsy c.environment then
        (st, ["environment must be a non-empty string"], 0)
      else if initDeprUsed c && initCurrUsed c then
        (st, ["Cannot mix deprecated parameters with new detection parameters in logger.init()"], 0)
      else if (initAssigned st c).sampleRate < 0 ∨ (initAssigned st c).sampleRate > 1 then
        (initAssigned st c, ["sampleRate must be between 0.0 and 1.0"], initWarnCount c)
      else if (initAssigned st c).detectionSampleRate < 0 ∨
          (initAssigned st c).detectionSampleRate > 1 then
        (initAssigned st c, ["detectionSampleRate must be between 0.0 and 1.0"], initWarnCount c)
      else ({ initAssigned st c with configured := true }, [], initWarnCount c) := by
  unfold init initAssigned initDeprUsed initCurrUsed initResolvedDetections
    initResolvedDetectionSampleRate initWarnCount
  cases ha : optStrFalsy c.appName with
  | true => simp
  | false =>
  cases he : optStrFalsy c.environment with
  | true => simp
  | false =>
  cases hd : c.hallucinationDetection.isSome || c.inconsistencyDetection.isSome ||
      c.hallucinationDetectionSampleRate.isSome with
  | true =>
    cases hcur : c.detections.isSome || c.detectionSampleRate.isSome with
    | true => simp [hd, hcur, initDeprUsed, initCurrUsed]
    | false => simp [hd, hcur, initDeprUsed, initCurrUsed]
  | false =>
    cases hcur : c.detections.isSome || c.detectionSampleRate.isSome with
    | true => simp [hd, hcur, initDeprUsed, initCurrUsed]
    | false => simp [hd, hcur, initDeprUsed, initCurrUsed]

/-- If every element before the bad one is accepted, document validation
reports an error naming exactly that element's index, with the specific
reason (invalid object shape or invalid element type). -/
lemma validateDocumentsAux_first_bad (d : JSValue) (hd : docAccepted d = false) :
    ∀ pre post off, (∀ x ∈ pre, docAccepted x = true) →
      validateDocumentsAux (pre ++ d :: post) off =
          .error (docFormatErrorMsg (off + pre.length) ((isValidLogDocument d).getD "")) ∨
      validateDocumentsAux (pre ++ d :: post) off =
        .error (docTypeErrorMsg (off + pre.length) (jsTypeof d)) := by
  intro pre
  induction pre with
  | nil =>
    intro post off _
    cases d with
    | str s => simp [docAccepted] at hd
    | num q => right; simp [validateDocumentsAux, jsTypeof]
    | bool b => right; simp [validateDocumentsAux, jsTypeof]
    | null => right; simp [validateDocumentsAux, jsTypeof, JSValue.isNull]
    | undefined => right; simp [validateDocumentsAux, jsTypeof]
    | arr es =>
      left
      simp [validateDocumentsAux, jsTypeof, JSValue.isNull, isValidLogDocument, getField]
    | obj fields =>
      left
      have hobj := isValidLogDocument_obj fields
      rw [hd] at hobj
      cases hv : isValidLogDocument (.obj fields) with
      | none => rw [hv] at hobj; simp at hobj
      | some err =>
        simp [validateDocumentsAux, jsTypeof, JSValue.isNull, hv]
  | cons p pre2 ih =>
    intro post off hpre
    have hp : docAccepted p = true := hpre p (by simp)
    have hrest : ∀ x ∈ pre2, docAccepted x = true := fun x hx => hpre x (by simp [hx])
    have harith : off + 1 + pre2.length = off + (pre2.length + 1) := by omega
    have hrec := ih post (off + 1) hrest
    rw [harith] at hrec
    cases p with
    | str s => simpa [validateDocumentsAux, jsTypeof] using hrec
    | num q => simp [docAccepted] at hp
    | bool b => simp [docAccepted] at hp
    | null => simp [docAccepted] at hp
    | undefined => simp [docAccepted] at hp
    | arr es => simp [docAccepted] at hp
    | obj fields =>
      have hobj := isValidLogDocument_obj fields
      rw [hp] at hobj
      cases hv : isValidLogDocument (.obj fields) with
      | some err => rw [hv] at hobj; simp at hobj
      | none =>
        simpa [validateDocumentsAux, jsTypeof, JSValue.isNull, hv] using hrec

/-- Under the timing model, a 300 s timeout with a 2 s interval admits
exactly 150 queries. -/
lemma maxQueries_300_2 : maxQueries 300 2 = 150 := by
  rw [maxQueries, show ((300 : Rat) * 1000) / ((2 : Rat) * 1000) = 150 by norm_num]
  norm_num [Rat.ceil]
  decide

/-! ### Claim theorems -/

/-- C1: a `log()` call that passes all configuration, reconciliation and
validation checks (`logChecksPass`) and whose sampling draw succeeds
performs exactly one `create` call on the collaborator — the canonical
record carrying the generated id — and resolves to that id; a call failing
any check resolves to null with zero `create` calls; a valid but unsampled
call resolves to undefined with zero `create` calls. -/
theorem log_emission_trichotomy (st : LoggerState) (p : LogParams)
    (rand : Rat) (genId now : String) :
    _internalLog st p rand genId now =
      (if logChecksPass st p then
        if rand < st.sampleRate then
          (.logged genId, [mkCreateCall st p genId now], st)
        else (.sampledOut, [], st)
      else (.failed, [], st)) ∧
    (mkCreateCall st p genId now).id = genId :=
  ⟨internalLog_spec st p rand genId now, rfl⟩

/-- C2: `configured = true` is a precondition of both operations: an
unconfigured `log()` reports an error and resolves null with no `create`
call, and `pollForDetection` on an unconfigured logger — or, when
configured, on an empty log id — reports an error and resolves null with
zero `getDetections` calls. -/
theorem configured_precondition (st : LoggerState) (p : LogParams)
    (rand : Rat) (genId now logId : String) (timeout pollInterval : Rat)
    (responses : Nat → PollResponse) :
    (st.configured = false →
      _internalLog st p rand genId now = (.failed, [], st)) ∧
    (st.configured = false →
      _internalPollForDetection st logId timeout pollInterval responses =
        { result := none, queries := 0, sleeps := 0,
          errors := ["Logger is not configured. Please call init() before polling for detection results."] }) ∧
    (st.configured = true → logId = "" →
      _internalPollForDetection st logId timeout pollInterval responses =
        { result := none, queries := 0, sleeps := 0,
          errors := ["Log ID is required for detection polling."] }) := by
  refine ⟨?_, ?_, ?_⟩
  · intro h; simp [_internalLog, h]
  · intro h; simp [_internalPollForDetection, h]
  · intro hc hl; simp [_internalPollForDetection, hc, hl]

/-- Witness for C2 at concrete inputs: the default (unconfigured) state and
a configured state with an empty log id. -/
theorem configured_precondition_witness :
    _internalLog {} {} 0 "id0" "t0" = (.failed, [], {}) ∧
    _internalPollForDetection {} "log-1" 300 2 pendingStub =
      { result := none, queries := 0, sleeps := 0,
        errors := ["Logger is not configured. Please call init() before polling for detection results."] } ∧
    _internalPollForDetection stOK "" 300 2 pendingStub =
      { result := none, queries := 0, sleeps := 0,
        errors := ["Log ID is required for detection polling."] } :=
  ⟨(configured_precondition {} {} 0 "id0" "t0" "log-1" 300 2 pendingStub).1 rfl,
   (configured_precondition {} {} 0 "id0" "t0" "log-1" 300 2 pendingStub).2.1 rfl,
   (configured_precondition stOK {} 0 "id0" "t0" "" 300 2 pendingStub).2.2 rfl rfl⟩

/-- C10: `log()` never mutates the logger configuration state — every field
is unchanged whatever the resolution — and the tags submitted with a record
are a fresh merge of the stored defaults with the call-site tags (call-site
wins), not an update of the stored map. -/
theorem log_frame_property (st : LoggerState) (p : LogParams) (rand : Rat)
    (genId now : String) :
    (_internalLog st p rand genId now).2.2 = st ∧
    (_internalLog st p rand genId now).2.2.appName = st.appName ∧
    (_internalLog st p rand genId now).2.2.environment = st.environment ∧
    (_internalLog st p rand genId now).2.2.tags = st.tags ∧
    (_internalLog st p rand genId now).2.2.sampleRate = st.sampleRate ∧
    (_internalLog st p rand genId now).2.2.detections = st.detections ∧
    (_internalLog st p rand genId now).2.2.detectionSampleRate = st.detectionSampleRate ∧
    (_internalLog st p rand genId now).2.2.configured = st.configured ∧
    ((_internalLog st p rand genId now).2.1.map CreateCall.tags =
      (_internalLog st p rand genId now).2.1.map
        (fun _ => mergeTags st.tags (p.tags.getD []))) := by
  rw [internalLog_spec]
  cases hb : logChecksPass st p <;> by_cases hr : rand < st.sampleRate <;>
    simp [hb, hr, mkCreateCall, mkCreateCallWith]

/-- C6 (code bug): `init` stores `config.sampleRate || 1.0`, so an explicit
`sampleRate = 0` — which the range check itself accepts as valid — is
silently replaced by the default `1.0`.  The logger configures with rate 1
and a subsequent valid `log()` call (random draw 0) still performs a `create`
call, while the claim (and the sampling contract of the specification)
requires that a logger initialised with rate 0 never emits. -/
theorem sampleRate_zero_still_creates :
    (init {} cfgZeroRate).1.sampleRate = 1 ∧
    (init {} cfgZeroRate).1.configured = true ∧
    (_internalLog (init {} cfgZeroRate).1 {} 0 "id0" "t0").1 = .logged "id0" ∧
    (_internalLog (init {} cfgZeroRate).1 {} 0 "id0" "t0").2.1.length = 1 :=
  ⟨by decide, by decide, by decide, by decide⟩

/-- C3 counterexample: a `log()` call setting the legacy field
`hallucinationDetectionSampleRate` together with the current field
`detections` is NOT rejected — `_internalLog` counts only
`hallucinationDetection` and `inconsistencyDetection` as deprecated — so
the call proceeds and performs a `create` call. -/
theorem log_mixing_counterexample :
    pRateMixed.hallucinationDetectionSampleRate.isSome = true ∧
    pRateMixed.detections.isSome = true ∧
    logDeprUsed pRateMixed = false ∧
    (_internalLog stOK pRateMixed 0 "id0" "t0").1 = .logged "id0" ∧
    (_internalLog stOK pRateMixed 0 "id0" "t0").2.1.length = 1 :=
  ⟨rfl, rfl, rfl, by decide, by decide⟩

/-- C3 (amended): mixing the detection schemes is rejected with no side
effect, where the legacy fields counted are all three for `init` but only
the two boolean flags for `log` — `hallucinationDetectionSampleRate` at
`log` time is ignored and does not trigger the conflict.  A mixed `init`
with valid identity reports the conflict error and leaves the state
unchanged; a mixed `log` resolves null with zero `create` calls. -/
theorem mixing_rejection_amended (st : LoggerState) (c : LoggerConfig)
    (p : LogParams) (rand : Rat) (genId now : String) :
    (initDeprUsed c = true → initCurrUsed c = true →
      optStrFalsy c.appName = false → optStrFalsy c.environment = false →
      init st c =
        (st, ["Cannot mix deprecated parameters with new detection parameters in logger.init()"], 0)) ∧
    (logDeprUsed p = true → logCurrUsed p = true →
      _internalLog st p rand genId now = (.failed, [], st)) := by
  constructor
  · intro hd hcur ha he
    rw [init_spec]
    simp [ha, he, hd, hcur]
  · intro hd hcur
    rw [internalLog_spec]
    have hfail : logChecksPass st p = false := by simp [logChecksPass, hd, hcur]
    simp [hfail]

/-- Witness for C3 (amended) at the mixed config and mixed `log` params. -/
theorem mixing_rejection_amended_witness :
    init {} cfgMixed =
      ({}, ["Cannot mix deprecated parameters with new detection parameters in logger.init()"], 0) ∧
    _internalLog stOK pMixed 0 "id0" "t0" = (.failed, [], stOK) :=
  ⟨(mixing_rejection_amended {} cfgMixed pMixed 0 "id0" "t0").1 rfl rfl rfl rfl,
   (mixing_rejection_amended stOK cfgMixed pMixed 0 "id0" "t0").2 rfl rfl⟩

/-- C4 counterexample: through the deprecated path a `log()` call whose
resolved detection set contains `HALLUCINATION` succeeds (one `create`
call) with no `documents`, `messageHistory` or `instructions` present —
the legacy branch only requires `userQuery` and `modelOutput`. -/
theorem hallucination_requirements_counterexample :
    resolvedDetections stOK pLegacyNoContext = [DetectionType.HALLUCINATION] ∧
    pLegacyNoContext.documents = none ∧
    pLegacyNoContext.messageHistory = none ∧
    pLegacyNoContext.instructions = none ∧
    (_internalLog stOK pLegacyNoContext 0 "id0" "t0").1 = .logged "id0" ∧
    (_internalLog stOK pLegacyNoContext 0 "id0" "t0").2.1.length = 1 :=
  ⟨rfl, rfl, rfl, rfl, by decide, by decide⟩

/-- C4 (amended): for `log()` calls that do not use the legacy parameters,
a resolved detection set containing `HALLUCINATION` requires `userQuery`,
`modelOutput` and at least one of `documents`, `messageHistory`,
`instructions` (else the call resolves null with no `create`); a resolved
set containing `DOCUMENT_RELEVANCY` requires `userQuery` and `documents`,
and succeeds without `modelOutput`. -/
theorem detection_requirements_amended (st : LoggerState) (p : LogParams)
    (rand : Rat) (genId now : String) :
    (logDeprUsed p = false → DetectionType.HALLUCINATION ∈ resolvedDetections st p →
      (optStrFalsy p.userQuery = true ∨ optStrFalsy p.modelOutput = true ∨
        (p.documents = none ∧ p.messageHistory = none ∧ p.instructions = none)) →
      _internalLog st p rand genId now = (.failed, [], st)) ∧
    (logDeprUsed p = false → DetectionType.DOCUMENT_RELEVANCY ∈ resolvedDetections st p →
      (optStrFalsy p.userQuery = true ∨ p.documents = none) →
      _internalLog st p rand genId now = (.failed, [], st)) ∧
    _internalLog stDR pDR 0 "id0" "t0" =
      (.logged "id0", [mkCreateCall stDR pDR "id0" "t0"], stDR) := by
  refine ⟨?_, ?_, ?_⟩
  · intro hdep hmem hmiss
    rw [internalLog_spec]
    have hofk : detectionFieldsOk p .HALLUCINATION = false := by
      rcases hmiss with h | h | ⟨h1, h2, h3⟩
      · simp [detectionFieldsOk, h]
      · simp [detectionFieldsOk, h]
      · simp [detectionFieldsOk, h1, h2, h3]
    have hall : (resolvedDetections st p).all (detectionFieldsOk p) = false :=
      List.all_eq_false.mpr ⟨_, hmem, by simp [hofk]⟩
    have hfail : logChecksPass st p = false := by
      simp [logChecksPass, hdep, hall]
    simp [hfail]
  · intro hdep hmem hmiss
    rw [internalLog_spec]
    have hofk : detectionFieldsOk p .DOCUMENT_RELEVANCY = false := by
      rcases hmiss with h | h <;> simp [detectionFieldsOk, h]
    have hall : (resolvedDetections st p).all (detectionFieldsOk p) = false :=
      List.all_eq_false.mpr ⟨_, hmem, by simp [hofk]⟩
    have hfail : logChecksPass st p = false := by
      simp [logChecksPass, hdep, hall]
    simp [hfail]
  · rfl

/-- Witness for C4 (amended): a hallucination-detection call missing
`modelOutput` fails with no `create` call. -/
theorem detection_requirements_amended_witness :
    _internalLog stHall pQueryOnly 0 "id0" "t0" = (.failed, [], stHall) :=
  (detection_requirements_amended stHall pQueryOnly 0 "id0" "t0").1 rfl
    (by decide) (Or.inr (Or.inl rfl))

/-- C5: polling returns a bundle exactly on a terminal log status
(`LOG_CREATED_NO_DETECTIONS_PENDING` or
`LOG_CREATED_AND_DETECTION_COMPLETED`): with no terminal response before
the wall-clock bound it reports a timeout error and resolves null after one
query and one sleep per admitted iteration; the first terminal response at
index `d` yields its bundle after `d + 1` queries and `d` sleeps; and any
returned bundle has a terminal status. -/
theorem pollForDetection_terminal_behavior (st : LoggerState) (logId : String)
    (timeout pollInterval : Rat) (responses : Nat → PollResponse)
    (hc : st.configured = true) (hl : logId ≠ "") :
    ((∀ j, j < maxQueries timeout pollInterval → yieldsTerminal (responses j) = false) →
      _internalPollForDetection st logId timeout pollInterval responses =
        { result := none, queries := maxQueries timeout pollInterval,
          sleeps := maxQueries timeout pollInterval,
          errors := ["Timed out waiting for detection results after " ++ toString timeout ++ " seconds"] }) ∧
    (∀ d, d < maxQueries timeout pollInterval → yieldsTerminal (responses d) = true →
      (∀ j, j < d → yieldsTerminal (responses j) = false) →
      ∃ b, terminalBundle (responses d) = some b ∧
        _internalPollForDetection st logId timeout pollInterval responses =
          { result := some b, queries := d + 1, sleeps := d, errors := [] }) ∧
    (∀ b, (_internalPollForDetection st logId timeout pollInterval responses).result = some b →
      ∃ info, b.log = some info ∧ isTerminalStatus info.status = true) := by
  have hl2 : (logId == "") = false := by
    simp only [beq_eq_false_iff_ne, ne_eq]
    exact hl
  refine ⟨?_, ?_, ?_⟩
  · intro hnone
    have hloop := pollLoop_no_terminal responses (maxQueries timeout pollInterval) 0
      (fun j _ hj2 => hnone j (by omega))
    simp only [Nat.zero_add] at hloop
    simp [_internalPollForDetection, hc, hl2, hloop]
  · intro d hd ht hmin
    obtain ⟨b, info, hb, hlog, hterm⟩ := yieldsTerminal_bundle _ ht
    refine ⟨b, hb, ?_⟩
    have hloop := pollLoop_first_terminal responses (maxQueries timeout pollInterval) 0 d hd
      (by simpa using ht) (fun j _ hj2 => hmin j (by omega))
    simp only [Nat.zero_add] at hloop
    rw [hb] at hloop
    simp [_internalPollForDetection, hc, hl2, hloop]
  · intro b hres
    unfold _internalPollForDetection at hres
    rw [hc] at hres
    simp only [Bool.not_true, Bool.false_eq_true, if_false, hl2] at hres
    rcases hloop : pollLoop responses 0 (maxQueries timeout pollInterval) with ⟨res, q, s⟩
    rw [hloop] at hres
    cases res with
    | none => simp at hres
    | some b2 =>
      simp at hres
      obtain ⟨info, hlog, hterm⟩ := pollLoop_some_terminal responses _ 0 b2 q s hloop
      rw [← hres]
      exact ⟨info, hlog, hterm⟩

/-- Witness for C5: the two-pending-then-completed stub yields the final
bundle after exactly 3 queries and 2 sleeps; the never-terminal stub times
out after 150 queries (timeout 300 s, interval 2 s). -/
theorem pollForDetection_terminal_behavior_witness :
    _internalPollForDetection stOK "log-1" 300 2 twoPendingStub =
      { result := terminalBundle (twoPendingStub 2), queries := 3, sleeps := 2,
        errors := [] } ∧
    _internalPollForDetection stOK "log-1" 300 2 pendingStub =
      { result := none, queries := 150, sleeps := 150,
        errors := ["Timed out waiting for detection results after " ++ toString (300 : Rat) ++ " seconds"] } := by
  constructor
  · obtain ⟨b, hb, heq⟩ :=
      (pollForDetection_terminal_behavior stOK "log-1" 300 2 twoPendingStub rfl
        (by decide)).2.1 2 (by rw [maxQueries_300_2]; decide) (by decide) (by decide)
    rw [heq, hb]
  · have h :=
      (pollForDetection_terminal_behavior stOK "log-1" 300 2 pendingStub rfl
        (by decide)).1 (fun j _ => rfl)
    rw [h, maxQueries_300_2]

/-- C7 counterexample: an `init` call using only legacy fields does NOT
always succeed — with `hallucinationDetectionSampleRate = 3/2` the range
check fails, an error is reported and the logger stays unconfigured. -/
theorem legacy_init_counterexample :
    initDeprUsed { appName := some "app", environment := some "dev", hallucinationDetection := some true, hallucinationDetectionSampleRate := some (mkRat 3 2) } = true ∧
    initCurrUsed { appName := some "app", environment := some "dev", hallucinationDetection := some true, hallucinationDetectionSampleRate := some (mkRat 3 2) } = false ∧
    (init {} { appName := some "app", environment := some "dev", hallucinationDetection := some true, hallucinationDetectionSampleRate := some (mkRat 3 2) }).1.configured = false ∧
    (init {} { appName := some "app", environment := some "dev", hallucinationDetection := some true, hallucinationDetectionSampleRate := some (mkRat 3 2) }).2.1 =
      ["detectionSampleRate must be between 0.0 and 1.0"] :=
  ⟨rfl, rfl, by decide, by decide⟩

/-- C7 (amended): an `init` call using only legacy detection fields, with
valid `appName`/`environment` and in-range resolved sample rates, succeeds
and stores the canonical form: `hallucinationDetection = true` maps to
`detections = [HALLUCINATION]`, `hallucinationDetectionSampleRate` maps to
`detectionSampleRate`, `inconsistencyDetection` is silently dropped, and
exactly one deprecation notice is emitted. -/
theorem legacy_init_conversion_amended (st : LoggerState) (c : LoggerConfig)
    (hdep : initDeprUsed c = true) (hcur : initCurrUsed c = false)
    (ha : optStrFalsy c.appName = false) (he : optStrFalsy c.environment = false)
    (hsr0 : 0 ≤ jsOrOptNum c.sampleRate 1) (hsr1 : jsOrOptNum c.sampleRate 1 ≤ 1)
    (hdr0 : 0 ≤ jsOrOptNum c.hallucinationDetectionSampleRate 0)
    (hdr1 : jsOrOptNum c.hallucinationDetectionSampleRate 0 ≤ 1) :
    init st c =
      ({ st with
          appName := c.appName
          environment := c.environment
          tags := c.tags.getD []
          sampleRate := jsOrOptNum c.sampleRate 1
          detections :=
            if c.hallucinationDetection == some true then
              [DetectionType.HALLUCINATION]
            else []
          detectionSampleRate := jsOrOptNum c.hallucinationDetectionSampleRate 0
          configured := true }, [], 1) := by
  rw [init_spec]
  simp [ha, he, hdep, hcur, initWarnCount, initAssigned, initResolvedDetections,
    initResolvedDetectionSampleRate, not_lt.mpr hsr0, not_lt.mpr hsr1,
    not_lt.mpr hdr0, not_lt.mpr hdr1]

/-- Witness for C7 (amended): the claim example, rate 4/5 = 0.8, with the
unsupported `inconsistencyDetection` flag also set and dropped. -/
theorem legacy_init_conversion_amended_witness :
    init {} cfgLegacy =
      ({ appName := some "app", environment := some "dev", tags := [],
         sampleRate := 1, configured := true,
         detections := [DetectionType.HALLUCINATION],
         detectionSampleRate := mkRat 4 5 }, [], 1) := by
  have h := legacy_init_conversion_amended {} cfgLegacy rfl rfl rfl rfl
    (by decide) (by decide) (by decide) (by decide)
  rw [h]
  rfl

/-- C8 counterexample: `init` is NOT atomic.  A first `init` failing the
sample-rate range check leaves the logger unconfigured but with the new
field values already assigned (not the defaults), and a failed re-`init`
overwrites the prior configuration while leaving `configured = true`. -/
theorem init_atomicity_counterexample :
    (init {} cfgRate2).1.configured = false ∧
    (init {} cfgRate2).1.appName = some "app" ∧
    (init {} cfgRate2).1.sampleRate = 2 ∧
    ({} : LoggerState).appName = none ∧
    (init stOK cfgReinit).1.configured = true ∧
    (init stOK cfgReinit).1.appName = some "other" ∧
    stOK.appName = some "app" :=
  ⟨by decide, by decide, by decide, rfl, by decide, by decide, rfl⟩

/-- C8 (amended): failures detected before the assignments (invalid
`appName`/`environment`, scheme mixing) leave the state unchanged with a
reported error; out-of-range sample-rate failures are detected after the
assignments, so the new field values are already applied while `configured`
keeps its prior value, with a reported error. -/
theorem init_atomicity_amended (st : LoggerState) (c : LoggerConfig) :
    (optStrFalsy c.appName = true ∨ optStrFalsy c.environment = true ∨
        (initDeprUsed c = true ∧ initCurrUsed c = true) →
      (init st c).1 = st ∧ (init st c).2.1 ≠ []) ∧
    (optStrFalsy c.appName = false → optStrFalsy c.environment = false →
      (initDeprUsed c && initCurrUsed c) = false →
      ((initAssigned st c).sampleRate < 0 ∨ (initAssigned st c).sampleRate > 1 ∨
        (initAssigned st c).detectionSampleRate < 0 ∨
        (initAssigned st c).detectionSampleRate > 1) →
      (init st c).1 = initAssigned st c ∧
      (init st c).1.configured = st.configured ∧
      (init st c).2.1 ≠ []) := by
  constructor
  · intro h
    rw [init_spec]
    cases ha : optStrFalsy c.appName with
    | true => simp
    | false =>
      cases he : optStrFalsy c.environment with
      | true => simp
      | false =>
        rcases h with h | h | ⟨h1, h2⟩
        · rw [ha] at h; exact absurd h (by simp)
        · rw [he] at h; exact absurd h (by simp)
        · simp [h1, h2]
  · intro ha he hmix hrange
    rw [init_spec]
    simp only [initAssigned] at hrange
    rcases hrange with h | h | h | h
    · have hc1 : jsOrOptNum c.sampleRate 1 < 0 ∨ 1 < jsOrOptNum c.sampleRate 1 := Or.inl h
      simp [ha, he, hmix, hc1, initAssigned]
    · have hc1 : jsOrOptNum c.sampleRate 1 < 0 ∨ 1 < jsOrOptNum c.sampleRate 1 := Or.inr h
      simp [ha, he, hmix, hc1, initAssigned]
    · by_cases hsr : jsOrOptNum c.sampleRate 1 < 0 ∨ 1 < jsOrOptNum c.sampleRate 1
      · simp [ha, he, hmix, hsr, initAssigned]
      · have hc2 : initResolvedDetectionSampleRate c < 0 ∨
            1 < initResolvedDetectionSampleRate c := Or.inl h
        simp [ha, he, hmix, hsr, hc2, initAssigned]
    · by_cases hsr : jsOrOptNum c.sampleRate 1 < 0 ∨ 1 < jsOrOptNum c.sampleRate 1
      · simp [ha, he, hmix, hsr, initAssigned]
      · have hc2 : initResolvedDetectionSampleRate c < 0 ∨
            1 < initResolvedDetectionSampleRate c := Or.inr h
        simp [ha, he, hmix, hsr, hc2, initAssigned]

/-- Witness for C8 (amended): a mixed `init` leaves the default state
unchanged; a re-`init` with sample rate 2 applies the new fields while
keeping the prior `configured` value. -/
theorem init_atomicity_amended_witness :
    (init {} cfgMixed).1 = ({} : LoggerState) ∧ (init {} cfgMixed).2.1 ≠ [] ∧
    (init stOK cfgReinit).1 = initAssigned stOK cfgReinit ∧
    (init stOK cfgReinit).1.configured = stOK.configured ∧
    (init stOK cfgReinit).2.1 ≠ [] := by
  obtain ⟨h1, h2⟩ := (init_atomicity_amended {} cfgMixed).1 (Or.inr (Or.inr ⟨rfl, rfl⟩))
  obtain ⟨h3, h4, h5⟩ := (init_atomicity_amended stOK cfgReinit).2 rfl rfl rfl
    (Or.inr (Or.inl (by decide)))
  exact ⟨h1, h2, h3, h4, h5⟩

/-- C9: document validation accepts exactly the bare strings and the
objects with a string `pageContent` and an absent or object-typed
`metadata`; the first offending element produces an error message naming
its index and the specific reason, as in the claim examples. -/
theorem document_validation_characterization (ds pre post : List JSValue)
    (d : JSValue) :
    (validateDocuments ds = .ok () ↔ ds.all docAccepted = true) ∧
    ((∀ x ∈ pre, docAccepted x = true) → docAccepted d = false →
      validateDocuments (pre ++ d :: post) =
          .error (docFormatErrorMsg pre.length ((isValidLogDocument d).getD "")) ∨
      validateDocuments (pre ++ d :: post) =
        .error (docTypeErrorMsg pre.length (jsTypeof d))) ∧
    validateDocuments
        [.obj [("pageContent", .str "x"), ("metadata", .obj [("source", .str "y")])]] =
      .ok () ∧
    validateDocuments [.str "a plain passage"] = .ok () ∧
    validateDocuments [.obj [("pageContent", .num 123)]] =
      .error (docFormatErrorMsg 0
        "The pageContent property must be a string, found number") := by
  refine ⟨validateDocuments_ok_iff ds, ?_, rfl, rfl, rfl⟩
  intro hpre hd
  have h := validateDocumentsAux_first_bad d hd pre post 0 hpre
  simpa [validateDocuments] using h

/-- Witness for C9: a number document after one accepted string is rejected
with a message naming index 1 and the found type. -/
theorem document_validation_characterization_witness :
    validateDocuments ([.str "ok"] ++ .num 5 :: []) =
        .error (docFormatErrorMsg ([JSValue.str "ok"]).length
          ((isValidLogDocument (.num 5)).getD "")) ∨
    validateDocuments ([.str "ok"] ++ .num 5 :: []) =
      .error (docTypeErrorMsg ([JSValue.str "ok"]).length (jsTypeof (.num 5))) :=
  (document_validation_characterization [] [.str "ok"] [] (.num 5)).2.1
    (by simp [docAccepted]) rfl

end QuotientTS
